/-
Verification of the Freya-NodeRED-nodes control logic.

Shallow embedding of the Node-RED controller nodes of the Freya vivarium
control system:
  * the dual-deadband temperature/humidity controller
    (src/nodes/temperature-controller/temperature-controller-node.ts;
    the humidity controller is the same engine with the actuator pair
    renamed humidifier/dehumidifier and different default constants),
  * the circadian-core rhythm target generator (src/unnamed/part_007,
    the canonical swing-weighted variant),
  * the lighting shaping controller (src/unnamed/part_010),
  * the precipitation pulse controller
    (src/nodes/precipitation-controller/precipitation-controller-node.ts).

Modelling conventions:
  * JavaScript numbers are modelled by `JNum`: either NaN or an exact
    rational.  Comparisons involving NaN are false and arithmetic on NaN
    propagates NaN, as in IEEE/JS.  Infinity is not modelled; division is
    only reached by the code with a nonzero finite divisor except in the
    lighting remap when `bottomCutOff = 100`, which every theorem below
    excludes by hypothesis (there JS would produce Infinity/NaN).
  * The JS falsy-default idiom `x || d` on numbers (which replaces both 0
    and NaN by `d`) is modelled by `jor`/`qor`.
  * `setTimeout`/`setInterval` timers are modelled as explicit deadline
    fields in the state plus an explicit fire event; starting a timer
    replaces the stored deadline, clearing it sets it to `none`, and a
    fire event has effect only when a deadline is stored and due.
  * `node.send` calls are modelled as the list of emitted messages
    returned by each handler, in order.  Human-readable text inside
    status payloads (timestamps, log strings) is not modelled; the
    machine-relevant fields (state, actuator values, severity, override)
    are kept.
-/
import Mathlib

/-- A JavaScript number: NaN or an exact rational (finite doubles are
modelled as exact rationals; Infinity is out of scope, see header). -/
inductive JNum where
  | nan : JNum
  | fin (q : ℚ) : JNum
deriving DecidableEq, Repr

namespace JNum

/-- JS `<` : false whenever either operand is NaN. -/
def jlt : JNum → JNum → Bool
  | fin a, fin b => a < b
  | _, _ => false

/-- JS `>` : false whenever either operand is NaN. -/
def jgt : JNum → JNum → Bool
  | fin a, fin b => b < a
  | _, _ => false

/-- JS `+` on numbers: NaN propagates. -/
def jadd : JNum → JNum → JNum
  | fin a, fin b => fin (a + b)
  | _, _ => nan

/-- JS `-` on numbers: NaN propagates. -/
def jsub : JNum → JNum → JNum
  | fin a, fin b => fin (a - b)
  | _, _ => nan

/-- JS `*` on numbers: NaN propagates. -/
def jmul : JNum → JNum → JNum
  | fin a, fin b => fin (a * b)
  | _, _ => nan

/-- JS `/` on numbers: NaN propagates; division by zero gives NaN in the
model (JS gives ±Infinity for a nonzero dividend — all theorems below stay
away from the one code path where that can happen). -/
def jdiv : JNum → JNum → JNum
  | fin a, fin b => if b = 0 then nan else fin (a / b)
  | _, _ => nan

/-- JS `Math.min`: NaN-absorbing. -/
def jmin : JNum → JNum → JNum
  | fin a, fin b => fin (min a b)
  | _, _ => nan

/-- JS `Math.max`: NaN-absorbing. -/
def jmax : JNum → JNum → JNum
  | fin a, fin b => fin (max a b)
  | _, _ => nan

/-- JS `Math.round`: round half toward positive infinity
(`Math.round x = ⌊x + 1/2⌋`); NaN propagates. -/
def jround : JNum → JNum
  | fin a => fin (⌊a + 1/2⌋ : ℤ)
  | nan => nan

/-- The JS falsy-default idiom `x || d` on numbers: both `0` and NaN are
falsy and replaced by the default. -/
def jor (x : JNum) (d : JNum) : JNum :=
  match x with
  | nan => d
  | fin q => if q = 0 then d else fin q

end JNum

/-- `x || d` for a number already known to be finite (the stored
configuration fields): `0` is falsy and replaced by the default. -/
def qor (x d : ℚ) : ℚ := if x = 0 then d else x

/-- `x || d` where `x` is a raw `parseFloat`/`parseInt` result (possibly
NaN) and the result is a finite stored configuration value. -/
def qjor (x : JNum) (d : ℚ) : ℚ :=
  match x with
  | JNum.nan => d
  | JNum.fin q => if q = 0 then d else q

/-- An inbound message payload, as discriminated by the nodes' `typeof`
checks.  `obj` carries the (optional) numeric `min`/`max` fields used by
the circadian node's legacy object form; a field that is absent or not a
number is `none`. -/
inductive JsValue where
  | num (n : JNum) : JsValue
  | str (s : String) : JsValue
  | boolv (b : Bool) : JsValue
  | nullv : JsValue
  | undef : JsValue
  | obj (minF maxF : Option JNum) : JsValue
deriving DecidableEq, Repr

/-- `typeof payload === 'number'` (true for NaN too). -/
def JsValue.isNumber : JsValue → Bool
  | num _ => true
  | _ => false

/- ------------------------------------------------------------------
   Dual-deadband temperature/humidity controller
   (src/nodes/temperature-controller/temperature-controller-node.ts).
   The humidity controller (src/nodes/humidity-controller/
   humidity-controller-node.ts) is the identical engine with the
   actuator pair renamed and defaults deadband=2, min=0, max=100;
   theorems quantify over the configuration, so they cover both.
   ------------------------------------------------------------------ -/

/-- Stored node configuration (the values of `this.deadband` etc. after
the constructor's `parseFloat(...) || default`; hence finite, and the
constructor can never store `0` for deadband / limits / timeout since
`0 || d = d`). -/
structure TempCfg where
  deadband : ℚ
  minimumTemperature : ℚ
  maximumTemperature : ℚ
  watchdogTimeout : ℚ
  watchdogSeverity : String
deriving DecidableEq, Repr

/-- `state.currentState` of the controller. -/
inductive TState where
  | heating | cooling | idle
deriving DecidableEq, Repr

/-- `ControllerState` of the temperature controller node.  The
`watchdogTimer` handle is modelled by the deadline (in ms) at which the
scheduled `setTimeout` callback would fire, `none` when no timer runs. -/
structure CtrlState where
  targetTemperature : Option JNum
  currentTemperature : Option JNum
  currentState : TState
  safetyOverride : Option String
  watchdogDeadline : Option ℚ
  openLoopMode : Bool
deriving DecidableEq, Repr

/-- Return value of `calculateControl`. -/
structure Ctl where
  heater : String
  cooler : String
  state : String
  override : Option String
deriving DecidableEq, Repr

/-- `calculateControl` (temperature-controller-node.ts lines 101-151).
Returns the computed command together with the mutated controller state
(the source mutates `state.currentState` / `state.safetyOverride` in
place). -/
def calculateControl (cfg : TempCfg) (s : CtrlState) : Ctl × CtrlState :=
  -- In open-loop mode, return safe state
  if s.openLoopMode then
    (⟨"off", "off", "open-loop", none⟩, s)
  else
    match s.currentTemperature, s.targetTemperature with
    | some temp, some target =>
      -- Safety overrides take precedence
      if temp.jlt (JNum.fin (qor cfg.minimumTemperature 10)) then
        (⟨"on", "off", "heating", some "minimum temperature"⟩,
         { s with safetyOverride := some "min", currentState := TState.heating })
      else if temp.jgt (JNum.fin (qor cfg.maximumTemperature 50)) then
        (⟨"off", "on", "cooling", some "maximum temperature"⟩,
         { s with safetyOverride := some "max", currentState := TState.cooling })
      else
        -- Clear safety override if we're back in normal range
        let s1 := { s with safetyOverride := none }
        -- Dual deadband control with target as dividing line
        if temp.jlt (target.jsub (JNum.fin (qor cfg.deadband 1))) then
          (⟨"on", "off", "heating", none⟩, { s1 with currentState := TState.heating })
        else if temp.jgt (target.jadd (JNum.fin (qor cfg.deadband 1))) then
          (⟨"off", "on", "cooling", none⟩, { s1 with currentState := TState.cooling })
        else if s1.currentState = TState.heating ∧ temp.jlt target then
          -- Continue heating until we reach target
          (⟨"on", "off", "heating", none⟩, s1)
        else if s1.currentState = TState.cooling ∧ temp.jgt target then
          -- Continue cooling until we reach target
          (⟨"off", "on", "cooling", none⟩, s1)
        else
          -- At target or within deadband with no prior state - idle
          (⟨"off", "off", "idle", none⟩, { s1 with currentState := TState.idle })
    | _, _ => (⟨"off", "off", "idle", none⟩, s)

/-- A message emitted by the controller node on one of its two outputs:
the actuator command, or the status payload (machine-relevant fields
only; timestamps and free-text messages are not modelled). -/
inductive OutMsg where
  | actuators (heater cooler : String) : OutMsg
  | status (state : String) (severity : Option String)
      (override : Option String) (openLoop : Bool) : OutMsg
deriving DecidableEq, Repr

/-- `_executeControlLoop` (lines 182-208): run `calculateControl` and
send the actuator command plus the status payload. -/
def executeControlLoop (cfg : TempCfg) (s : CtrlState) : CtrlState × List OutMsg :=
  let cs := calculateControl cfg s
  (cs.2, [OutMsg.actuators cs.1.heater cs.1.cooler,
          OutMsg.status cs.1.state none cs.1.override cs.2.openLoopMode])

/-- `updateTemperature` (lines 211-225): store the reading, leave
open-loop mode if set, restart the watchdog (`startWatchdog` replaces
the pending deadline with `now + (watchdogTimeout || 60) * 1000` ms) and
run the control loop immediately. -/
def updateTemperature (cfg : TempCfg) (s : CtrlState) (n : JNum) (now : ℚ) :
    CtrlState × List OutMsg :=
  let s1 := { s with
    currentTemperature := some n,
    openLoopMode := false,
    watchdogDeadline := some (now + qor cfg.watchdogTimeout 60 * 1000) }
  executeControlLoop cfg s1

/-- The `node.on('input')` handler (lines 228-250): topic `sensor` with a
numeric payload updates the reading; any other topic with a numeric
payload updates the target (running the loop only when a reading exists
and the controller is not open-loop); every non-numeric payload is
ignored. -/
def tempInput (cfg : TempCfg) (s : CtrlState) (topic : Option String)
    (payload : JsValue) (now : ℚ) : CtrlState × List OutMsg :=
  if topic = some "sensor" then
    match payload with
    | JsValue.num n => updateTemperature cfg s n now
    | _ => (s, [])
  else
    match payload with
    | JsValue.num n =>
      let s1 := { s with targetTemperature := some n }
      if s1.currentTemperature ≠ none ∧ s1.openLoopMode = false then
        executeControlLoop cfg s1
      else
        (s1, [])
    | _ => (s, [])

/-- The watchdog `setTimeout` callback (lines 65-90), as an explicit fire
event at time `now`: it has effect only if a deadline is scheduled and
due, in which case the controller enters open-loop mode and emits the
safe actuator command plus the severity-tagged `open-loop` status. -/
def tempWatchdogFire (cfg : TempCfg) (s : CtrlState) (now : ℚ) :
    CtrlState × List OutMsg :=
  match s.watchdogDeadline with
  | some d =>
    if d ≤ now then
      ({ s with openLoopMode := true, watchdogDeadline := none },
       [OutMsg.actuators "off" "off",
        OutMsg.status "open-loop" (some cfg.watchdogSeverity) none true])
    else (s, [])
  | none => (s, [])

/- ------------------------------------------------------------------
   Circadian-core rhythm target generator (src/unnamed/part_007,
   the canonical swing-weighted variant).  The two cosine factors
   (seasonal, diurnal) are functions of the simulated time through
   transcendental `Math.cos`; the embedding takes them as oracle
   parameters `sf df : ℚ`, constrained to `[-1, 1]` in the theorems
   exactly as `Math.cos` guarantees.
   ------------------------------------------------------------------ -/

/-- Stored circadian node configuration, after the constructor's
`parseFloat(...) || default` coercions (lines 88-93): in particular a
configured swing of `0` is stored as `1.0` (`qjor` is exactly that
coercion and is applied again inside `calculateTarget`). -/
structure CircCfg where
  phaseShift : ℚ
  diurnalSwing : ℚ
  seasonalSwing : ℚ
  tickInterval : ℚ
  decimals : ℕ
deriving DecidableEq, Repr

/-- `CircadianState`: the two externally supplied bounds (any payload
passing `typeof === 'number'`, hence possibly NaN) and whether the tick
`setInterval` timer is running.  The node's displayed status text is
kept abstractly: `"awaiting setpoints"` or `"target"`. -/
structure CircState where
  absoluteMin : Option JNum
  absoluteMax : Option JNum
  tickActive : Bool
  statusText : String
deriving DecidableEq, Repr

/-- `Number(x.toFixed(d))`: round to `d` decimal places, ties toward
positive infinity (JS `toFixed` rounds to nearest); NaN propagates. -/
def roundTo (d : ℕ) (x : JNum) : JNum :=
  match x with
  | JNum.fin q => JNum.fin ((⌊q * 10 ^ d + 1/2⌋ : ℤ) / (10 ^ d : ℚ))
  | JNum.nan => JNum.nan

/-- `calculateTarget` (part_007 lines 150-176), with the two cosine
factors supplied as oracle parameters.  Returns `none` until both
bounds are set.  Note the `|| 1.0` (`qor`) re-applied to the stored
swings, so the `totalSwing === 0` midpoint branch is reachable only
when the two (coerced) swings cancel, never when both are configured
zero. -/
def calculateTarget (cfg : CircCfg) (s : CircState) (sf df : ℚ) : Option JNum :=
  match s.absoluteMin, s.absoluteMax with
  | some lo, some hi =>
    let sS := qor cfg.seasonalSwing 1
    let dS := qor cfg.diurnalSwing 1
    let totalSwing := sS + dS
    if totalSwing = 0 then
      -- Handle edge case: if both swings are 0, default to midpoint
      some (lo.jadd ((hi.jsub lo).jmul (JNum.fin (1/2))))
    else
      -- Weighted combination of both sines, normalised to [0, 1]
      let combined := (sf * sS + df * dS) / totalSwing
      let factor := (combined + 1) / 2
      some (lo.jadd ((hi.jsub lo).jmul (JNum.fin factor)))
  | _, _ => none

/-- A message emitted by the circadian node: the rounded target on
output 1, or the status payload carrying the same rounded target on
output 2. -/
inductive CircOut where
  | target (v : JNum) : CircOut
  | statusMsg (target : JNum) : CircOut
deriving DecidableEq, Repr

/-- The target-topic emissions within an output list. -/
def targetsOf (l : List CircOut) : List JNum :=
  l.filterMap fun m =>
    match m with
    | CircOut.target v => some v
    | _ => none

/-- `emitTarget` (part_007 lines 179-200): round the computed target to
the configured decimals and send it on both outputs; show the awaiting
status and send nothing while a bound is missing. -/
def emitTarget (cfg : CircCfg) (s : CircState) (sf df : ℚ) :
    CircState × List CircOut :=
  match calculateTarget cfg s sf df with
  | none => ({ s with statusText := "awaiting setpoints" }, [])
  | some t =>
    let r := roundTo cfg.decimals t
    ({ s with statusText := "target" }, [CircOut.target r, CircOut.statusMsg r])

/-- `startTickInterval` (part_007 lines 203-222): (re)start the interval
timer and emit immediately when both setpoints are present. -/
def startTickInterval (cfg : CircCfg) (s : CircState) (sf df : ℚ) :
    CircState × List CircOut :=
  let s1 := { s with tickActive := true }
  if s1.absoluteMin ≠ none ∧ s1.absoluteMax ≠ none then
    emitTarget cfg s1 sf df
  else
    (s1, [])

/-- The tick `setInterval` callback (part_007 lines 211-216), as an
explicit event: when the timer runs it emits once per elapsed tick
interval, but only if both setpoints are set. -/
def circTick (cfg : CircCfg) (s : CircState) (sf df : ℚ) :
    CircState × List CircOut :=
  if s.tickActive then
    if s.absoluteMin ≠ none ∧ s.absoluteMax ≠ none then
      emitTarget cfg s sf df
    else
      (s, [])
  else
    (s, [])

/-- The circadian `node.on('input')` handler (part_007 lines 225-263):
topic-based `absoluteMin`/`absoluteMax` numeric updates, plus the legacy
`{min, max}` object form (reached for any topic, since the first two
branches of the source's if-chain also require a numeric payload); each
emits immediately and restarts the tick interval once both bounds are
set. -/
def circInput (cfg : CircCfg) (s : CircState) (sf df : ℚ)
    (topic : Option String) (payload : JsValue) : CircState × List CircOut :=
  match payload with
  | JsValue.num n =>
    if topic = some "absoluteMin" then
      let s1 := { s with absoluteMin := some n }
      if s1.absoluteMin ≠ none ∧ s1.absoluteMax ≠ none then
        let r1 := emitTarget cfg s1 sf df
        let r2 := startTickInterval cfg r1.1 sf df
        (r2.1, r1.2 ++ r2.2)
      else
        (s1, [])
    else if topic = some "absoluteMax" then
      let s1 := { s with absoluteMax := some n }
      if s1.absoluteMin ≠ none ∧ s1.absoluteMax ≠ none then
        let r1 := emitTarget cfg s1 sf df
        let r2 := startTickInterval cfg r1.1 sf df
        (r2.1, r1.2 ++ r2.2)
      else
        (s1, [])
    else
      (s, [])
  | JsValue.obj (some mn) (some mx) =>
    -- Handle object-based setpoint messages (legacy support)
    let s1 := { s with absoluteMin := some mn, absoluteMax := some mx }
    let r1 := emitTarget cfg s1 sf df
    let r2 := startTickInterval cfg r1.1 sf df
    (r2.1, r1.2 ++ r2.2)
  | _ => (s, [])

/- ------------------------------------------------------------------
   Lighting shaping controller (src/unnamed/part_010).
   ------------------------------------------------------------------ -/

/-- Stored lighting node configuration after the constructor's
defaulting (lines 43-48): `gain = parseFloat || 1.0`,
`bottomCutOff = parseFloat || 50.0` (so neither can be stored as 0),
the schedule times as raw strings (`""` when unset). -/
structure LightCfg where
  gain : ℚ
  bottomCutOff : ℚ
  mode : String
  scheduleTime1 : String
  scheduleTime2 : String
  scheduleMode : String
deriving DecidableEq, Repr

/-- The actuator payload emitted by the lighting node: analog percentage
or digital on/off. -/
inductive LightPayload where
  | analog (v : JNum) : LightPayload
  | digital (lighting : String) : LightPayload
deriving DecidableEq, Repr

/-- The lighting `node.on('input')` handler (part_010 lines 87-177):
rectify below the bottom cut-off, remap, apply gain, clamp to [0,100],
apply the schedule gate, and emit analog (1-decimal) or digital.
`withinSchedule` is the oracle value of the wall-clock test
`isWithinSchedule()`.  Returns `none` when the payload is rejected as
non-numeric (status `invalid input`, nothing sent). -/
def lightingHandle (cfg : LightCfg) (withinSchedule : Bool)
    (payload : JsValue) : Option LightPayload :=
  match payload with
  | JsValue.num v0 =>
    -- Apply bottom cut-off; remap so that bottomCutOff becomes 0%
    let v1 :=
      if v0.jlt (JNum.fin (qor cfg.bottomCutOff 50)) then
        JNum.fin 0
      else
        ((v0.jsub (JNum.fin (qor cfg.bottomCutOff 50))).jdiv
          (JNum.fin (100 - qor cfg.bottomCutOff 50))).jmul (JNum.fin 100)
    -- Apply gain
    let v2 := v1.jmul (JNum.fin (qor cfg.gain 1))
    -- Clamp to 0-100 range
    let v3 := (JNum.fin 0).jmax ((JNum.fin 100).jmin v2)
    -- Apply schedule gate if both times are set
    let v4 :=
      if cfg.scheduleTime1 ≠ "" ∧ cfg.scheduleTime2 ≠ "" then
        if cfg.scheduleMode = "allowed" then
          if withinSchedule = false then JNum.fin 0 else v3
        else if cfg.scheduleMode = "guaranteed" then
          if withinSchedule then JNum.fin 100 else v3
        else v3
      else v3
    -- Round to 1 decimal for the analog payload / status display
    let finalValue := (v4.jmul (JNum.fin 10)).jround.jdiv (JNum.fin 10)
    if cfg.mode = "digital" then
      some (LightPayload.digital (if v4.jgt (JNum.fin 0) then "on" else "off"))
    else
      some (LightPayload.analog finalValue)
  | _ => none

/- ------------------------------------------------------------------
   Precipitation pulse controller
   (src/nodes/precipitation-controller/precipitation-controller-node.ts).
   Only the state and the close handler are needed by the claims.
   ------------------------------------------------------------------ -/

/-- `PrecipitationState` (lines 27-36): the off `setTimeout` is modelled
by its deadline, the tick `setInterval` by a running flag. -/
structure PrecipState where
  lastPrecipitation : Option ℚ
  pumpActive : Bool
  offTimer : Option ℚ
  tickTimer : Bool
  intervalMs : ℚ
  durationMs : ℚ
  night : Bool
  previousState : Option String
deriving DecidableEq, Repr

/-- A message emitted by the precipitation node on output 1 (actuator)
or output 2 (status). -/
inductive PumpOut where
  | actuators (pump : String) : PumpOut
  | status (state : String) : PumpOut
deriving DecidableEq, Repr

/-- The `node.on('close')` handler (lines 181-195): release the tick and
off timers, then, if the pump is active, clear the flag and force the
`{pump: 'off'}` actuator command. -/
def precipClose (s : PrecipState) : PrecipState × List PumpOut :=
  let s1 := { s with tickTimer := false, offTimer := none }
  if s1.pumpActive then
    ({ s1 with pumpActive := false }, [PumpOut.actuators "off"])
  else
    (s1, [])

/- ------------------------------------------------------------------
   Helper lemmas
   ------------------------------------------------------------------ -/

/-- `calculateControl` only ever mutates `currentState` and
`safetyOverride`; the stored readings, the watchdog deadline and the
open-loop flag are untouched. -/
theorem calculateControl_frame (cfg : TempCfg) (s : CtrlState) :
    (calculateControl cfg s).2.openLoopMode = s.openLoopMode
    ∧ (calculateControl cfg s).2.watchdogDeadline = s.watchdogDeadline
    ∧ (calculateControl cfg s).2.currentTemperature = s.currentTemperature
    ∧ (calculateControl cfg s).2.targetTemperature = s.targetTemperature := by
  unfold calculateControl
  dsimp only
  repeat' split
  all_goals simp_all

/-- Sample controller configuration used by the concrete witnesses
(deadband 1, limits 10/50, watchdog 60 s — the node defaults). -/
def sampleCfg : TempCfg := ⟨1, 10, 50, 60, "warning"⟩

/-- Sample controller state used by the concrete witnesses
(target 30, reading 25, idle, watchdog scheduled at 1000 ms). -/
def sampleSt : CtrlState :=
  ⟨some (JNum.fin 30), some (JNum.fin 25), TState.idle, none, some 1000, false⟩

/-- Sample controller state in open-loop mode. -/
def sampleStOpen : CtrlState :=
  ⟨some (JNum.fin 30), some (JNum.fin 25), TState.heating, none, none, true⟩

/-- **C1** For every deadband controller (temperature/humidity): when the
watchdog timer fires (no sensor update through its whole timeout, so the
scheduled deadline is due), the controller enters open-loop mode and
emits both actuators off with status state `open-loop`; while
`openLoopMode` is set, every evaluation yields both actuator outputs off
regardless of the drive state; and any numeric sensor update clears
open-loop mode and restarts the watchdog in the same step. -/
theorem c1_watchdog_fail_safe (cfg : TempCfg) (s s2 s3 : CtrlState)
    (d now t : ℚ) (n : JNum)
    (hd : s.watchdogDeadline = some d) (hdue : d ≤ now)
    (hopen : s2.openLoopMode = true) :
    (tempWatchdogFire cfg s now).1.openLoopMode = true
    ∧ (tempWatchdogFire cfg s now).2 =
        [OutMsg.actuators "off" "off",
         OutMsg.status "open-loop" (some cfg.watchdogSeverity) none true]
    ∧ (calculateControl cfg (tempWatchdogFire cfg s now).1).1 =
        ⟨"off", "off", "open-loop", none⟩
    ∧ (calculateControl cfg s2).1.heater = "off"
    ∧ (calculateControl cfg s2).1.cooler = "off"
    ∧ (tempInput cfg s3 (some "sensor") (JsValue.num n) t).1.openLoopMode = false
    ∧ (tempInput cfg s3 (some "sensor") (JsValue.num n) t).1.watchdogDeadline
        = some (t + qor cfg.watchdogTimeout 60 * 1000) := by
  refine ⟨?_, ?_, ?_, ?_, ?_, ?_, ?_⟩
  · simp [tempWatchdogFire, hd, hdue]
  · simp [tempWatchdogFire, hd, hdue]
  · simp [tempWatchdogFire, hd, hdue, calculateControl]
  · simp [calculateControl, hopen]
  · simp [calculateControl, hopen]
  · have h := (calculateControl_frame cfg
      { s3 with currentTemperature := some n, openLoopMode := false,
                watchdogDeadline := some (t + qor cfg.watchdogTimeout 60 * 1000) }).1
    simp [tempInput, updateTemperature, executeControlLoop]
    simpa using h
  · have h := (calculateControl_frame cfg
      { s3 with currentTemperature := some n, openLoopMode := false,
                watchdogDeadline := some (t + qor cfg.watchdogTimeout 60 * 1000) }).2.1
    simp [tempInput, updateTemperature, executeControlLoop]
    simpa using h

/-- Witness for C1 at a concrete input: watchdog scheduled at 1000 ms
fires at 1000 ms from `sampleSt`, entering open-loop mode. -/
theorem c1_watchdog_fail_safe_witness :
    (tempWatchdogFire sampleCfg sampleSt 1000).1.openLoopMode = true
    ∧ (tempWatchdogFire sampleCfg sampleSt 1000).2 =
        [OutMsg.actuators "off" "off",
         OutMsg.status "open-loop" (some "warning") none true] :=
  ⟨(c1_watchdog_fail_safe sampleCfg sampleSt sampleStOpen sampleSt 1000 1000 0
      (JNum.fin 25) (by decide) (by decide) (by decide)).1,
   (c1_watchdog_fail_safe sampleCfg sampleSt sampleStOpen sampleSt 1000 1000 0
      (JNum.fin 25) (by decide) (by decide) (by decide)).2.1⟩

/-- **C2** Safety override always wins: a sensor message strictly below
the minimum limit makes the controller emit low-actuator on / high off
with state `heating` (driveLow) and the `minimum` override, for every
target value and every prior controller state (a sensor message first
clears open-loop mode, so no prior state can mask the override);
symmetrically above the maximum limit.  The hypotheses `≠ 0` hold for
every stored configuration (the constructor's `|| default` never stores
0), and `min ≤ max` is the validity of the limit pair. -/
theorem c2_safety_override_wins (cfg : TempCfg) (s s' : CtrlState)
    (v w : ℚ) (tgt tgt' : JNum) (now now' : ℚ)
    (hmin0 : cfg.minimumTemperature ≠ 0)
    (hmax0 : cfg.maximumTemperature ≠ 0)
    (horder : cfg.minimumTemperature ≤ cfg.maximumTemperature)
    (htgt : s.targetTemperature = some tgt)
    (htgt' : s'.targetTemperature = some tgt')
    (hv : v < cfg.minimumTemperature)
    (hw : cfg.maximumTemperature < w) :
    (tempInput cfg s (some "sensor") (JsValue.num (JNum.fin v)) now).2 =
      [OutMsg.actuators "on" "off",
       OutMsg.status "heating" none (some "minimum temperature") false]
    ∧ (tempInput cfg s (some "sensor") (JsValue.num (JNum.fin v)) now).1.currentState
        = TState.heating
    ∧ (tempInput cfg s (some "sensor") (JsValue.num (JNum.fin v)) now).1.safetyOverride
        = some "min"
    ∧ (tempInput cfg s' (some "sensor") (JsValue.num (JNum.fin w)) now').2 =
      [OutMsg.actuators "off" "on",
       OutMsg.status "cooling" none (some "maximum temperature") false]
    ∧ (tempInput cfg s' (some "sensor") (JsValue.num (JNum.fin w)) now').1.currentState
        = TState.cooling
    ∧ (tempInput cfg s' (some "sensor") (JsValue.num (JNum.fin w)) now').1.safetyOverride
        = some "max" := by
  have hwmin : ¬ (w < cfg.minimumTemperature) := not_lt.2 (horder.trans hw.le)
  refine ⟨?_, ?_, ?_, ?_, ?_, ?_⟩ <;>
    simp [tempInput, updateTemperature, executeControlLoop, calculateControl,
      JNum.jlt, JNum.jgt, qor, hmin0, hmax0, htgt, htgt', hv, hw, hwmin]

/-- Witness for C2 at concrete inputs: sensor 5 < 10 forces heating,
sensor 55 > 50 forces cooling, from the idle `sampleSt`. -/
theorem c2_safety_override_wins_witness :
    (tempInput sampleCfg sampleSt (some "sensor") (JsValue.num (JNum.fin 5)) 0).2 =
      [OutMsg.actuators "on" "off",
       OutMsg.status "heating" none (some "minimum temperature") false]
    ∧ (tempInput sampleCfg sampleSt (some "sensor") (JsValue.num (JNum.fin 55)) 0).2 =
      [OutMsg.actuators "off" "on",
       OutMsg.status "cooling" none (some "maximum temperature") false] :=
  ⟨(c2_safety_override_wins sampleCfg sampleSt sampleSt 5 55 (JNum.fin 30) (JNum.fin 30)
      0 0 (by decide) (by decide) (by decide) (by decide) (by decide)
      (by decide) (by decide)).1,
   (c2_safety_override_wins sampleCfg sampleSt sampleSt 5 55 (JNum.fin 30) (JNum.fin 30)
      0 0 (by decide) (by decide) (by decide) (by decide) (by decide)
      (by decide) (by decide)).2.2.2.1⟩

/-- **C3** Ride-to-target hysteresis, with no safety override active
(reading within the limit band): from state `heating` (driveLow), every
evaluation with sensor < target keeps heating with the low actuator on —
also when the reading has re-entered the deadband from below — and the
state leaves `heating` only when sensor ≥ target; symmetrically for
`cooling` (driveHigh) with sensor > target. -/
theorem c3_ride_to_target (cfg : TempCfg) (s s' : CtrlState)
    (v tgt u tgt' : ℚ)
    (hmin0 : cfg.minimumTemperature ≠ 0) (hmax0 : cfg.maximumTemperature ≠ 0)
    (hdb0 : 0 ≤ cfg.deadband)
    (hopen : s.openLoopMode = false)
    (hcur : s.currentTemperature = some (JNum.fin v))
    (htgt : s.targetTemperature = some (JNum.fin tgt))
    (hstate : s.currentState = TState.heating)
    (hlo : cfg.minimumTemperature ≤ v) (hhi : v ≤ cfg.maximumTemperature)
    (hopen' : s'.openLoopMode = false)
    (hcur' : s'.currentTemperature = some (JNum.fin u))
    (htgt' : s'.targetTemperature = some (JNum.fin tgt'))
    (hstate' : s'.currentState = TState.cooling)
    (hlo' : cfg.minimumTemperature ≤ u) (hhi' : u ≤ cfg.maximumTemperature) :
    (v < tgt →
      (calculateControl cfg s).1 = ⟨"on", "off", "heating", none⟩
      ∧ (calculateControl cfg s).2.currentState = TState.heating)
    ∧ ((calculateControl cfg s).2.currentState ≠ TState.heating → tgt ≤ v)
    ∧ (tgt' < u →
      (calculateControl cfg s').1 = ⟨"off", "on", "cooling", none⟩
      ∧ (calculateControl cfg s').2.currentState = TState.cooling)
    ∧ ((calculateControl cfg s').2.currentState ≠ TState.cooling → u ≤ tgt') := by
  have hq : 0 ≤ qor cfg.deadband 1 := by
    rw [qor]; split
    · norm_num
    · exact hdb0
  have h1 : ¬ (v < qor cfg.minimumTemperature 10) := by
    rw [qor, if_neg hmin0]; exact not_lt.2 hlo
  have h2 : ¬ (qor cfg.maximumTemperature 50 < v) := by
    rw [qor, if_neg hmax0]; exact not_lt.2 hhi
  have h1' : ¬ (u < qor cfg.minimumTemperature 10) := by
    rw [qor, if_neg hmin0]; exact not_lt.2 hlo'
  have h2' : ¬ (qor cfg.maximumTemperature 50 < u) := by
    rw [qor, if_neg hmax0]; exact not_lt.2 hhi'
  have hA : v < tgt →
      (calculateControl cfg s).1 = ⟨"on", "off", "heating", none⟩
      ∧ (calculateControl cfg s).2.currentState = TState.heating := by
    intro hlt
    by_cases hdb : v < tgt - qor cfg.deadband 1
    · simp [calculateControl, hopen, hcur, htgt, JNum.jlt, JNum.jgt,
        JNum.jsub, JNum.jadd, h1, h2, hdb]
    · have h3 : ¬ (tgt + qor cfg.deadband 1 < v) := by
        push_neg at hdb
        exact not_lt.2 (by linarith)
      simp [calculateControl, hopen, hcur, htgt, hstate, JNum.jlt, JNum.jgt,
        JNum.jsub, JNum.jadd, h1, h2, hdb, h3, hlt]
  have hC : tgt' < u →
      (calculateControl cfg s').1 = ⟨"off", "on", "cooling", none⟩
      ∧ (calculateControl cfg s').2.currentState = TState.cooling := by
    intro hgt
    by_cases hdb : tgt' + qor cfg.deadband 1 < u
    · have h4 : ¬ (u < tgt' - qor cfg.deadband 1) := by
        exact not_lt.2 (by linarith)
      simp [calculateControl, hopen', hcur', htgt', JNum.jlt, JNum.jgt,
        JNum.jsub, JNum.jadd, h1', h2', hdb, h4]
    · have h4 : ¬ (u < tgt' - qor cfg.deadband 1) := by
        push_neg at hdb
        exact not_lt.2 (by linarith)
      simp [calculateControl, hopen', hcur', htgt', hstate', JNum.jlt, JNum.jgt,
        JNum.jsub, JNum.jadd, h1', h2', hdb, h4, hgt]
  refine ⟨hA, ?_, hC, ?_⟩
  · intro hne
    by_contra hc
    push_neg at hc
    exact hne (hA hc).2
  · intro hne
    by_contra hc
    push_neg at hc
    exact hne (hC hc).2

/-- Witness for C3 at a concrete input: from heating with reading 29
inside the deadband (target 30 ± 1), the controller keeps heating. -/
theorem c3_ride_to_target_witness :
    (calculateControl sampleCfg
      ⟨some (JNum.fin 30), some (JNum.fin 29), TState.heating, none, some 1000, false⟩).1
      = ⟨"on", "off", "heating", none⟩
    ∧ (calculateControl sampleCfg
      ⟨some (JNum.fin 30), some (JNum.fin 29), TState.heating, none, some 1000, false⟩).2.currentState
      = TState.heating :=
  (c3_ride_to_target sampleCfg
      ⟨some (JNum.fin 30), some (JNum.fin 29), TState.heating, none, some 1000, false⟩
      ⟨some (JNum.fin 30), some (JNum.fin 31), TState.cooling, none, some 1000, false⟩
      29 30 31 30
      (by decide) (by decide) (by decide) (by decide) (by decide) (by decide)
      (by decide) (by decide) (by decide) (by decide) (by decide) (by decide)
      (by decide) (by decide) (by decide)).1 (by decide)

/-- **C10** A sensor message whose payload is NaN passes the numeric
input check (`typeof NaN === 'number'`): it overwrites the stored
reading with NaN, clears open-loop mode, restarts the watchdog, and the
resulting evaluation falls through every comparison to the idle branch,
emitting both actuators off — NaN is not treated as malformed input. -/
theorem c10_nan_sensor_accepted (cfg : TempCfg) (s : CtrlState)
    (tgt : JNum) (now : ℚ)
    (htgt : s.targetTemperature = some tgt) :
    (tempInput cfg s (some "sensor") (JsValue.num JNum.nan) now).1.currentTemperature
      = some JNum.nan
    ∧ (tempInput cfg s (some "sensor") (JsValue.num JNum.nan) now).1.openLoopMode = false
    ∧ (tempInput cfg s (some "sensor") (JsValue.num JNum.nan) now).1.watchdogDeadline
      = some (now + qor cfg.watchdogTimeout 60 * 1000)
    ∧ (tempInput cfg s (some "sensor") (JsValue.num JNum.nan) now).1.currentState
      = TState.idle
    ∧ (tempInput cfg s (some "sensor") (JsValue.num JNum.nan) now).2 =
      [OutMsg.actuators "off" "off", OutMsg.status "idle" none none false] := by
  cases tgt <;>
    refine ⟨?_, ?_, ?_, ?_, ?_⟩ <;>
      simp [tempInput, updateTemperature, executeControlLoop, calculateControl,
        JNum.jlt, JNum.jgt, JNum.jsub, JNum.jadd, htgt]

/-- Witness for C10 at a concrete input: a NaN reading into `sampleSt`
(which is heating) lands in the idle branch with both actuators off. -/
theorem c10_nan_sensor_accepted_witness :
    (tempInput sampleCfg sampleSt (some "sensor") (JsValue.num JNum.nan) 0).1.currentState
      = TState.idle
    ∧ (tempInput sampleCfg sampleSt (some "sensor") (JsValue.num JNum.nan) 0).2 =
      [OutMsg.actuators "off" "off", OutMsg.status "idle" none none false] :=
  ⟨(c10_nan_sensor_accepted sampleCfg sampleSt (JNum.fin 30) 0 (by decide)).2.2.2.1,
   (c10_nan_sensor_accepted sampleCfg sampleSt (JNum.fin 30) 0 (by decide)).2.2.2.2⟩

/-- **C8** A message whose payload is not of JS number type leaves the
deadband controller's stored state (target, reading, drive state, and in
particular the running watchdog deadline) completely unchanged and emits
nothing; the lighting controller likewise rejects it and sends no
actuator command.  (The circadian node is the rhythm generator, not a
controller; its legacy `{min,max}` object input is out of this claim's
scope.) -/
theorem c8_non_numeric_rejected (cfg : TempCfg) (lcfg : LightCfg)
    (s : CtrlState) (topic : Option String) (payload : JsValue)
    (now : ℚ) (ws : Bool)
    (hnp : payload.isNumber = false) :
    tempInput cfg s topic payload now = (s, [])
    ∧ lightingHandle lcfg ws payload = none := by
  constructor
  · unfold tempInput
    cases payload <;> simp_all [JsValue.isNumber]
  · unfold lightingHandle
    cases payload <;> simp_all [JsValue.isNumber]

/-- Witness for C8 at a concrete input: a string payload is dropped by
both controllers. -/
theorem c8_non_numeric_rejected_witness :
    tempInput sampleCfg sampleSt (some "sensor") (JsValue.str "oops") 0 = (sampleSt, [])
    ∧ lightingHandle ⟨1, 50, "analog", "", "", "allowed"⟩ true (JsValue.str "oops") = none :=
  c8_non_numeric_rejected sampleCfg ⟨1, 50, "analog", "", "", "allowed"⟩ sampleSt
    (some "sensor") (JsValue.str "oops") 0 true (by decide)

/-- **C9** Closing the precipitation controller while the pump is active
emits `{pump: 'off'}`, clears `pumpActive`, and releases both the tick
timer and the pending off-timer, so no actuator is left energized. -/
theorem c9_close_forces_pump_off (s : PrecipState)
    (h : s.pumpActive = true) :
    (precipClose s).2 = [PumpOut.actuators "off"]
    ∧ (precipClose s).1.pumpActive = false
    ∧ (precipClose s).1.offTimer = none
    ∧ (precipClose s).1.tickTimer = false := by
  simp [precipClose, h]

/-- Witness for C9 at a concrete input: closing with the pump on and an
off-timer pending. -/
theorem c9_close_forces_pump_off_witness :
    (precipClose ⟨some 0, true, some 30000, true, 3600000, 30000, false, some "active"⟩).2
      = [PumpOut.actuators "off"]
    ∧ (precipClose ⟨some 0, true, some 30000, true, 3600000, 30000, false, some "active"⟩).1.pumpActive
      = false :=
  ⟨(c9_close_forces_pump_off _ (by decide)).1,
   (c9_close_forces_pump_off _ (by decide)).2.1⟩

/-- **C4 (amended)** For every pair of set finite bounds and every valid
(nonnegative) swing configuration, the target computed by
`calculateTarget` — before the final rounding step of `emitTarget` —
lies within `[min lo hi, max lo hi]`, for all cosine factors in
`[-1, 1]` (which is all `Math.cos` can produce, for every simulated
time).  The rounding to the configured decimals can push the emitted
value outside the interval by up to half a rounding step (see the
counterexample). -/
theorem c4_target_within_bounds (cfg : CircCfg) (s : CircState)
    (lo hi sf df : ℚ)
    (hmin : s.absoluteMin = some (JNum.fin lo))
    (hmax : s.absoluteMax = some (JNum.fin hi))
    (hsS : 0 ≤ cfg.seasonalSwing) (hdS : 0 ≤ cfg.diurnalSwing)
    (hsf1 : -1 ≤ sf) (hsf2 : sf ≤ 1) (hdf1 : -1 ≤ df) (hdf2 : df ≤ 1) :
    ∃ t : ℚ, calculateTarget cfg s sf df = some (JNum.fin t)
      ∧ min lo hi ≤ t ∧ t ≤ max lo hi := by
  have hS : 0 < qor cfg.seasonalSwing 1 := by
    rw [qor]; split
    · norm_num
    · exact lt_of_le_of_ne hsS (Ne.symm (by assumption))
  have hD : 0 < qor cfg.diurnalSwing 1 := by
    rw [qor]; split
    · norm_num
    · exact lt_of_le_of_ne hdS (Ne.symm (by assumption))
  set sS := qor cfg.seasonalSwing 1 with hsSdef
  set dS := qor cfg.diurnalSwing 1 with hdSdef
  have htot : 0 < sS + dS := by linarith
  set f : ℚ := ((sf * sS + df * dS) / (sS + dS) + 1) / 2 with hfdef
  have hcomb1 : -1 ≤ (sf * sS + df * dS) / (sS + dS) := by
    rw [le_div_iff₀ htot]
    nlinarith
  have hcomb2 : (sf * sS + df * dS) / (sS + dS) ≤ 1 := by
    rw [div_le_iff₀ htot]
    nlinarith
  have hf0 : 0 ≤ f := by rw [hfdef]; linarith
  have hf1 : f ≤ 1 := by rw [hfdef]; linarith
  obtain ⟨mn, mx, tk, st⟩ := s
  simp only at hmin hmax
  subst hmin
  subst hmax
  refine ⟨lo + (hi - lo) * f, ?_, ?_, ?_⟩
  · simp only [calculateTarget]
    rw [if_neg (ne_of_gt htot)]
    simp [JNum.jsub, JNum.jmul, JNum.jadd]
  · rcases le_total lo hi with h | h
    · rw [min_eq_left h]; nlinarith
    · rw [min_eq_right h]; nlinarith
  · rcases le_total lo hi with h | h
    · rw [max_eq_right h]; nlinarith
    · rw [max_eq_left h]; nlinarith

/-- Witness for C4 (amended) at a concrete input: bounds 10/30, default
swings 1/1, factors (1, -1) give a target of 20, inside [10, 30]. -/
theorem c4_target_within_bounds_witness :
    ∃ t : ℚ, calculateTarget ⟨0, 1, 1, 60, 1⟩
        ⟨some (JNum.fin 10), some (JNum.fin 30), true, "target"⟩ 1 (-1)
        = some (JNum.fin t)
      ∧ min (10:ℚ) 30 ≤ t ∧ t ≤ max (10:ℚ) 30 :=
  c4_target_within_bounds ⟨0, 1, 1, 60, 1⟩
    ⟨some (JNum.fin 10), some (JNum.fin 30), true, "target"⟩ 10 30 1 (-1)
    (by decide) (by decide) (by decide) (by decide) (by decide) (by decide)
    (by decide) (by decide)

/-- **C4 counterexample** The claim as stated — the *emitted* target,
after rounding to the configured decimals, lies within
`[min lo hi, max lo hi]` — is false: with both bounds set to 0.26 and
one decimal, the target 0.26 is emitted as 0.3, outside
`[0.26, 0.26]`. -/
theorem c4_rounded_target_escapes_bounds :
    targetsOf (emitTarget ⟨0, 1, 1, 60, 1⟩
        ⟨some (JNum.fin (13/50)), some (JNum.fin (13/50)), true, "target"⟩ 1 1).2
      = [JNum.fin (3/10)]
    ∧ ¬ (min (13/50 : ℚ) (13/50) ≤ 3/10 ∧ (3/10 : ℚ) ≤ max (13/50 : ℚ) (13/50)) := by
  constructor
  · norm_num [emitTarget, calculateTarget, roundTo, qor,
      JNum.jsub, JNum.jmul, JNum.jadd]
    simp [targetsOf, List.filterMap_cons]
  · norm_num

/-- **C5** The claim says configured zero swings give exactly the
midpoint; the code instead coerces each configured `0` swing to `1.0`
(`|| 1.0`, both in the constructor and inside `calculateTarget`), so the
`totalSwing === 0` midpoint branch is unreachable for zero-configured
swings: with bounds 0/10 and both swings configured 0, at a simulated
time where both cosine factors are 1 (summer-solstice solar noon, zero
phase shift) the emitted target is 10, not the midpoint 5. -/
theorem c5_zero_swings_not_midpoint :
    calculateTarget ⟨0, qjor (JNum.fin 0) 1, qjor (JNum.fin 0) 1, 60, 1⟩
        ⟨some (JNum.fin 0), some (JNum.fin 10), true, "target"⟩ 1 1
      = some (JNum.fin 10)
    ∧ (10 : ℚ) ≠ (0 + 10) / 2 := by
  constructor
  · norm_num [calculateTarget, qjor, qor, JNum.jsub, JNum.jmul, JNum.jadd]
  · norm_num

/-- When both setpoints are stored, `calculateTarget` returns a value. -/
theorem calculateTarget_isSome (cfg : CircCfg) (s : CircState) (sf df : ℚ)
    (a b : JNum) (ha : s.absoluteMin = some a) (hb : s.absoluteMax = some b) :
    ∃ v, calculateTarget cfg s sf df = some v := by
  obtain ⟨mn, mx, tk, st⟩ := s
  simp only at ha hb
  subst ha; subst hb
  unfold calculateTarget
  dsimp only
  split <;> exact ⟨_, rfl⟩

/-- When both setpoints are stored, `emitTarget` sends exactly the
target message and its status copy. -/
theorem emitTarget_both_set (cfg : CircCfg) (s : CircState) (sf df : ℚ)
    (a b : JNum) (ha : s.absoluteMin = some a) (hb : s.absoluteMax = some b) :
    ∃ r, (emitTarget cfg s sf df).2 = [CircOut.target r, CircOut.statusMsg r] := by
  obtain ⟨v, hv⟩ := calculateTarget_isSome cfg s sf df a b ha hb
  unfold emitTarget
  rw [hv]
  exact ⟨_, rfl⟩

/-- `emitTarget` never changes the stored setpoints. -/
theorem emitTarget_frame (cfg : CircCfg) (s : CircState) (sf df : ℚ) :
    (emitTarget cfg s sf df).1.absoluteMin = s.absoluteMin
    ∧ (emitTarget cfg s sf df).1.absoluteMax = s.absoluteMax := by
  unfold emitTarget
  split <;> simp

/-- `startTickInterval` never changes the stored setpoints. -/
theorem startTickInterval_frame (cfg : CircCfg) (s : CircState) (sf df : ℚ) :
    (startTickInterval cfg s sf df).1.absoluteMin = s.absoluteMin
    ∧ (startTickInterval cfg s sf df).1.absoluteMax = s.absoluteMax := by
  unfold startTickInterval
  dsimp only
  split
  · obtain ⟨mn, mx, tk, st⟩ := s
    exact emitTarget_frame cfg ⟨mn, mx, true, st⟩ sf df
  · simp

/-- **C6** Emission triggers of the rhythm generator: a bound update
that leaves both bounds set emits a target immediately (for the
`absoluteMin` topic, the `absoluteMax` topic and the legacy object
form); each tick of the interval timer emits exactly one target while
both bounds are set; and while either bound is unset no event emits a
target and the displayed status (initially `awaiting setpoints`) is
left unchanged. -/
theorem c6_emission_triggers (cfg : CircCfg) (s : CircState) (sf df : ℚ)
    (n m mn mx : JNum) :
    (s.absoluteMax = some m →
      targetsOf (circInput cfg s sf df (some "absoluteMin") (JsValue.num n)).2 ≠ [])
    ∧ (s.absoluteMin = some n →
      targetsOf (circInput cfg s sf df (some "absoluteMax") (JsValue.num m)).2 ≠ [])
    ∧ (∀ topic, targetsOf
        (circInput cfg s sf df topic (JsValue.obj (some mn) (some mx))).2 ≠ [])
    ∧ (s.tickActive = true → s.absoluteMin = some n → s.absoluteMax = some m →
      ∃ r, targetsOf (circTick cfg s sf df).2 = [r])
    ∧ (s.absoluteMin = none ∨ s.absoluteMax = none →
      (circTick cfg s sf df).2 = [] ∧ (circTick cfg s sf df).1 = s)
    ∧ (∀ topic payload,
      ((circInput cfg s sf df topic payload).1.absoluteMin = none
        ∨ (circInput cfg s sf df topic payload).1.absoluteMax = none) →
      (circInput cfg s sf df topic payload).2 = []
      ∧ (circInput cfg s sf df topic payload).1.statusText = s.statusText) := by
  refine ⟨?_, ?_, ?_, ?_, ?_, ?_⟩
  · intro hmax
    obtain ⟨r, hr⟩ :=
      emitTarget_both_set cfg { s with absoluteMin := some n } sf df n m rfl hmax
    unfold circInput
    dsimp only
    rw [if_pos rfl]
    split
    · rw [hr]
      simp [targetsOf, List.filterMap_append]
    · next hg => exact absurd ⟨by simp, by simpa using Option.ne_none_iff_isSome.2 (by simp [hmax])⟩ hg
  · intro hmin
    obtain ⟨r, hr⟩ :=
      emitTarget_both_set cfg { s with absoluteMax := some m } sf df n m hmin rfl
    unfold circInput
    dsimp only
    rw [if_neg (by simp), if_pos rfl]
    split
    · rw [hr]
      simp [targetsOf, List.filterMap_append]
    · next hg => exact absurd ⟨by simpa using Option.ne_none_iff_isSome.2 (by simp [hmin]), by simp⟩ hg
  · intro topic
    obtain ⟨r, hr⟩ := emitTarget_both_set cfg
      { s with absoluteMin := some mn, absoluteMax := some mx } sf df mn mx rfl rfl
    unfold circInput
    dsimp only
    rw [hr]
    simp [targetsOf, List.filterMap_append]
  · intro htk hmin hmax
    obtain ⟨r, hr⟩ := emitTarget_both_set cfg s sf df n m hmin hmax
    unfold circTick
    rw [if_pos htk, if_pos ⟨by simp [hmin], by simp [hmax]⟩, hr]
    exact ⟨r, by simp [targetsOf]⟩
  · intro h
    unfold circTick
    split
    · rw [if_neg (by rcases h with h | h <;> simp [h])]
      exact ⟨rfl, rfl⟩
    · exact ⟨rfl, rfl⟩
  · intro topic payload hpost
    cases payload with
    | num k =>
      unfold circInput at hpost ⊢
      dsimp only at hpost ⊢
      by_cases ht1 : topic = some "absoluteMin"
      · rw [if_pos ht1] at hpost ⊢
        by_cases hg : (some k : Option JNum) ≠ none ∧ s.absoluteMax ≠ none
        · exfalso
          rw [if_pos hg] at hpost
          obtain ⟨hfa, hfb⟩ := startTickInterval_frame cfg
            (emitTarget cfg { s with absoluteMin := some k } sf df).1 sf df
          obtain ⟨hea, heb⟩ := emitTarget_frame cfg { s with absoluteMin := some k } sf df
          rcases hpost with hpost | hpost
          · rw [hfa, hea] at hpost
            simp at hpost
          · rw [hfb, heb] at hpost
            exact hg.2 hpost
        · rw [if_neg hg] at hpost ⊢
          exact ⟨rfl, rfl⟩
      · rw [if_neg ht1] at hpost ⊢
        by_cases ht2 : topic = some "absoluteMax"
        · rw [if_pos ht2] at hpost ⊢
          by_cases hg : s.absoluteMin ≠ none ∧ (some k : Option JNum) ≠ none
          · exfalso
            rw [if_pos hg] at hpost
            obtain ⟨hfa, hfb⟩ := startTickInterval_frame cfg
              (emitTarget cfg { s with absoluteMax := some k } sf df).1 sf df
            obtain ⟨hea, heb⟩ := emitTarget_frame cfg { s with absoluteMax := some k } sf df
            rcases hpost with hpost | hpost
            · rw [hfa, hea] at hpost
              exact hg.1 hpost
            · rw [hfb, heb] at hpost
              simp at hpost
          · rw [if_neg hg] at hpost ⊢
            exact ⟨rfl, rfl⟩
        · rw [if_neg ht2] at hpost ⊢
          exact ⟨rfl, rfl⟩
    | str v => exact ⟨rfl, rfl⟩
    | boolv b => exact ⟨rfl, rfl⟩
    | nullv => exact ⟨rfl, rfl⟩
    | undef => exact ⟨rfl, rfl⟩
    | obj f1 f2 =>
      cases f1 with
      | some a =>
        cases f2 with
        | some b =>
          exfalso
          unfold circInput at hpost
          dsimp only at hpost
          obtain ⟨hfa, hfb⟩ := startTickInterval_frame cfg
            (emitTarget cfg { s with absoluteMin := some a, absoluteMax := some b } sf df).1 sf df
          obtain ⟨hea, heb⟩ := emitTarget_frame cfg
            { s with absoluteMin := some a, absoluteMax := some b } sf df
          rcases hpost with hpost | hpost
          · rw [hfa, hea] at hpost
            simp at hpost
          · rw [hfb, heb] at hpost
            simp at hpost
        | none => exact ⟨rfl, rfl⟩
      | none => exact ⟨rfl, rfl⟩

/-- Witness for C6 at a concrete input: setting `absoluteMin` to 10 with
`absoluteMax` already 30 emits a target immediately. -/
theorem c6_emission_triggers_witness :
    targetsOf (circInput ⟨0, 1, 1, 60, 1⟩
        ⟨none, some (JNum.fin 30), false, "awaiting setpoints"⟩ 1 1
        (some "absoluteMin") (JsValue.num (JNum.fin 10))).2 ≠ [] :=
  (c6_emission_triggers ⟨0, 1, 1, 60, 1⟩
      ⟨none, some (JNum.fin 30), false, "awaiting setpoints"⟩ 1 1
      (JNum.fin 10) (JNum.fin 30) (JNum.fin 0) (JNum.fin 0)).1 (by decide)

/-- **C7 (amended)** Lighting shaping with no schedule gate configured:
an input below the cut-off yields output 0; otherwise the emitted analog
output is the remapped value `(v-b)/(100-b)*100`, multiplied by the
gain, clamped to [0,100] **and rounded to one decimal** (the rounding
step the original claim omitted); input 100 yields `100*gain` clamped
to 100 (rounded to one decimal); the scenario cutOff=50, gain=1,
input=75 yields exactly 50.0.  The hypotheses `≠ 0` hold for every
stored configuration (`parseFloat || default` never stores 0), and
`bottomCutOff ≠ 100` excludes the division by zero the formula itself
would hit. -/
theorem c7_shaping_pipeline (cfg : LightCfg) (v : ℚ) (ws : Bool)
    (h0 : 0 ≤ v) (h100 : v ≤ 100)
    (hb0 : cfg.bottomCutOff ≠ 0) (hb100 : cfg.bottomCutOff ≠ 100)
    (hg0 : cfg.gain ≠ 0)
    (hmode : cfg.mode = "analog")
    (hsched : cfg.scheduleTime1 = "" ∨ cfg.scheduleTime2 = "") :
    (lightingHandle cfg ws (JsValue.num (JNum.fin v)) =
      some (LightPayload.analog (JNum.fin
        (if v < cfg.bottomCutOff then 0
         else ((⌊max 0 (min 100 ((v - cfg.bottomCutOff) / (100 - cfg.bottomCutOff)
                  * 100 * cfg.gain)) * 10 + 1/2⌋ : ℤ) : ℚ) / 10))))
    ∧ (cfg.bottomCutOff < 100 →
      lightingHandle cfg ws (JsValue.num (JNum.fin 100)) =
        some (LightPayload.analog (JNum.fin
          (((⌊max 0 (min 100 (100 * cfg.gain)) * 10 + 1/2⌋ : ℤ) : ℚ) / 10))))
    ∧ lightingHandle ⟨1, 50, "analog", "", "", "allowed"⟩ true
        (JsValue.num (JNum.fin 75)) = some (LightPayload.analog (JNum.fin 50)) := by
  have hqb : qor cfg.bottomCutOff 50 = cfg.bottomCutOff := by
    rw [qor, if_neg hb0]
  have hqg : qor cfg.gain 1 = cfg.gain := by
    rw [qor, if_neg hg0]
  have hdz : (100 : ℚ) - cfg.bottomCutOff ≠ 0 := sub_ne_zero.2 (Ne.symm hb100)
  have hschedF : ¬ (cfg.scheduleTime1 ≠ "" ∧ cfg.scheduleTime2 ≠ "") := by
    rcases hsched with h | h <;> simp [h]
  have hmodeF : ¬ (cfg.mode = "digital") := by
    rw [hmode]; intro h; exact absurd h (by decide)
  refine ⟨?_, ?_, ?_⟩
  · unfold lightingHandle
    dsimp only
    rw [if_neg hschedF, if_neg hmodeF]
    by_cases hv : v < cfg.bottomCutOff
    · rw [if_pos (by simp [JNum.jlt, hqb, hv])]
      rw [if_pos hv]
      simp [JNum.jmul, JNum.jmin, JNum.jmax, JNum.jround, JNum.jdiv]
      norm_num
    · rw [if_neg (by simp [JNum.jlt, hqb, hv])]
      rw [if_neg hv]
      rw [hqb, hqg]
      simp only [JNum.jsub, JNum.jdiv, if_neg hdz, JNum.jmul, JNum.jmin,
        JNum.jmax, JNum.jround]
      norm_num
  · intro hblt
    unfold lightingHandle
    dsimp only
    rw [if_neg hschedF, if_neg hmodeF]
    rw [if_neg (by simp [JNum.jlt, hqb]; exact hblt.le)]
    rw [hqb, hqg]
    simp only [JNum.jsub, JNum.jdiv, if_neg hdz, JNum.jmul, JNum.jmin,
      JNum.jmax, JNum.jround]
    rw [show ((100 : ℚ) - cfg.bottomCutOff) / (100 - cfg.bottomCutOff) * 100 * cfg.gain
        = 100 * cfg.gain by rw [div_self hdz]; ring]
    norm_num
  · norm_num [lightingHandle, qor, JNum.jlt, JNum.jsub, JNum.jdiv, JNum.jmul,
      JNum.jmin, JNum.jmax, JNum.jround]
    exact fun h => absurd h (by decide)

/-- **C7 counterexample** The claim as stated — the analog output equals
the rectified/gained/clamped value exactly — is false: input 75.03 with
cutOff 50, gain 1 is emitted as 50.1 (one-decimal rounding), while the
claimed formula gives 50.06. -/
theorem c7_output_is_rounded :
    lightingHandle ⟨1, 50, "analog", "", "", "allowed"⟩ true
        (JsValue.num (JNum.fin (7503/100))) =
      some (LightPayload.analog (JNum.fin (501/10)))
    ∧ (501/10 : ℚ) ≠ (7503/100 - 50) / (100 - 50) * 100 * 1 := by
  constructor
  · norm_num [lightingHandle, qor, JNum.jlt, JNum.jsub, JNum.jdiv, JNum.jmul,
      JNum.jmin, JNum.jmax, JNum.jround]
    exact fun h => absurd h (by decide)
  · norm_num

/-- Witness for C7 (amended) at a concrete input: the scenario
cutOff=50, gain=1, input=75 gives output 50.0. -/
theorem c7_shaping_pipeline_witness :
    lightingHandle ⟨1, 50, "analog", "", "", "allowed"⟩ true
        (JsValue.num (JNum.fin 75)) = some (LightPayload.analog (JNum.fin 50)) :=
  (c7_shaping_pipeline ⟨1, 50, "analog", "", "", "allowed"⟩ 75 true
    (by norm_num) (by norm_num) (by norm_num) (by norm_num) (by norm_num)
    rfl (Or.inl rfl)).2.2
